import Mathlib

/-!
Verification development for the cursor-agents CLI tool collection
(src/tools/*.py): eleven standalone Python scripts that each issue one
HTTP request to the cursor-agents API and print the JSON response.

The embedding models:
  - JSON values (numbers restricted to integers, which is all these
    claims exercise) together with the exact rendering produced by
    the standard library call json.dumps(value, indent=2);
  - the two request/response helper variants that appear verbatim
    across the scripts (the agents-style helper used by create_agent,
    delete_agent, delete_queue, get_agent_status, get_queue_info,
    list_agents, list_queues, and the operator-style helper used by
    check_task_operator_lock, clear_task_operator_lock,
    enable_task_operator, disable_task_operator);
  - each script entry point, as a function from the environment
    variable value, the parsed command-line arguments and the network
    behaviour of the single outbound request to the observable process
    outcome (exit code, standard output, standard error, list of
    outbound requests, and whether an unhandled exception escaped).

Calls into the Python standard library that are not source code of this
repository (json.loads, str() on decoded values, exception message
texts) are modelled by explicit data: a value of type RawJson carries a
wire string together with the result json.loads would produce on it,
and transport errors carry the str(e) text of the raised exception.
-/

/-- JSON values as decoded by json.loads.  Objects keep the textual
field order; duplicate keys follow the CPython dict semantics
(last occurrence wins) via lookupLast below.  Numbers are modelled as
integers, the only numbers these tools ever construct. -/
inductive Json where
  | null : Json
  | bool : Bool → Json
  | num : Int → Json
  | str : String → Json
  | arr : List Json → Json
  | obj : List (String × Json) → Json

/-- The Python type name of a decoded JSON value, as it appears in
CPython error messages such as TypeError and AttributeError texts. -/
def pyTypeName : Json → String
  | Json.null => "NoneType"
  | Json.bool _ => "bool"
  | Json.num _ => "int"
  | Json.str _ => "str"
  | Json.arr _ => "list"
  | Json.obj _ => "dict"

/-- True when the value is a JSON object (a Python dict after decoding). -/
def Json.isObj : Json → Bool
  | Json.obj _ => true
  | _ => false

/-- Last-binding lookup in a decoded object, mirroring CPython dict
construction from JSON text where a duplicated key keeps its last value. -/
def lookupLast (kvs : List (String × Json)) (k : String) : Option Json :=
  (kvs.reverse.find? (fun p => p.1 == k)).map (fun p => p.2)

/-- Two spaces per indentation level, as produced by json.dumps(x, indent=2). -/
def indentStr (d : Nat) : String :=
  String.join (List.replicate d "  ")

/-- Lowercase hexadecimal digit. -/
def hexDigit (n : Nat) : Char :=
  if n < 10 then Char.ofNat (48 + n) else Char.ofNat (87 + n)

/-- Four lowercase hexadecimal digits, as in the \uXXXX escapes of
json.dumps with its default ensure_ascii=True. -/
def hex4 (n : Nat) : String :=
  String.mk [hexDigit (n / 4096 % 16), hexDigit (n / 256 % 16),
             hexDigit (n / 16 % 16), hexDigit (n % 16)]

/-- Escape of a single character inside a JSON string literal, following
json.dumps with ensure_ascii=True: quote and backslash are escaped, the
usual control shorthands are used, all other characters outside printable
ASCII are written as \uXXXX (with a surrogate pair above the BMP). -/
def escChar (c : Char) : List Char :=
  if c = '"' then ['\\', '"']
  else if c = '\\' then ['\\', '\\']
  else if c = '\n' then ['\\', 'n']
  else if c = '\t' then ['\\', 't']
  else if c = '\r' then ['\\', 'r']
  else if c.toNat = 8 then ['\\', 'b']
  else if c.toNat = 12 then ['\\', 'f']
  else if c.toNat < 32 then ('\\' :: 'u' :: (hex4 c.toNat).data)
  else if c.toNat < 127 then [c]
  else if c.toNat < 65536 then ('\\' :: 'u' :: (hex4 c.toNat).data)
  else ('\\' :: 'u' :: (hex4 (55296 + (c.toNat - 65536) / 1024)).data)
       ++ ('\\' :: 'u' :: (hex4 (56320 + (c.toNat - 65536) % 1024)).data)

/-- Escape of a character sequence inside a JSON string literal. -/
def escList : List Char → List Char
  | [] => []
  | c :: cs => escChar c ++ escList cs

/-- A JSON string literal as rendered by json.dumps. -/
def dumpStr (s : String) : String :=
  String.mk ('"' :: escList s.data ++ ['"'])

mutual

/-- Rendering of a JSON value at indentation depth d, following
json.dumps(value, indent=2): with an indent, the item separator is a
comma followed by a newline and the key separator is a colon and a
space; empty containers collapse to a bracket pair. -/
def dumpsVal : Json → Nat → String
  | Json.null, _ => "null"
  | Json.bool true, _ => "true"
  | Json.bool false, _ => "false"
  | Json.num n, _ => toString n
  | Json.str s, _ => dumpStr s
  | Json.arr [], _ => "[]"
  | Json.arr (x :: xs), d =>
      "[\n" ++ dumpsItems (x :: xs) (d + 1) ++ "\n" ++ indentStr d ++ "]"
  | Json.obj [], _ => "\x7b\x7d"
  | Json.obj (p :: ps), d =>
      "\x7b\n" ++ dumpsPairs (p :: ps) (d + 1) ++ "\n" ++ indentStr d ++ "\x7d"

/-- Rendering of array elements, one per line. -/
def dumpsItems : List Json → Nat → String
  | [], _ => ""
  | [x], d => indentStr d ++ dumpsVal x d
  | x :: y :: xs, d =>
      indentStr d ++ dumpsVal x d ++ ",\n" ++ dumpsItems (y :: xs) d

/-- Rendering of object fields, one per line. -/
def dumpsPairs : List (String × Json) → Nat → String
  | [], _ => ""
  | [(k, v)], d => indentStr d ++ dumpStr k ++ ": " ++ dumpsVal v d
  | (k, v) :: q :: qs, d =>
      indentStr d ++ dumpStr k ++ ": " ++ dumpsVal v d ++ ",\n"
        ++ dumpsPairs (q :: qs) d

end

/-- Top-level json.dumps(value, indent=2), as called by every script. -/
def dumps (v : Json) : String :=
  dumpsVal v 0

/-- Escape of a character inside a CPython repr of a str: backslash and
the single-quote delimiter are escaped, newline, carriage return and tab
use shorthands, other control characters are written as \xNN. -/
def pyEscChar (c : Char) : List Char :=
  if c = '\\' then ['\\', '\\']
  else if c.toNat = 39 then ['\\', Char.ofNat 39]
  else if c = '\n' then ['\\', 'n']
  else if c = '\r' then ['\\', 'r']
  else if c = '\t' then ['\\', 't']
  else if c.toNat < 32 || c.toNat = 127 then
    ('\\' :: 'x' :: [hexDigit (c.toNat / 16 % 16), hexDigit (c.toNat % 16)])
  else [c]

/-- Escape of a character sequence inside a CPython str repr. -/
def pyEscList : List Char → List Char
  | [] => []
  | c :: cs => pyEscChar c ++ pyEscList cs

mutual

/-- CPython str() of a value decoded by json.loads, as interpolated by
the f-string error reporting of the task-operator scripts. -/
def pyStr : Json → String
  | Json.null => "None"
  | Json.bool true => "True"
  | Json.bool false => "False"
  | Json.num n => toString n
  | Json.str s => s
  | Json.arr xs => "[" ++ pyReprItems xs ++ "]"
  | Json.obj kvs => "\x7b" ++ pyReprPairs kvs ++ "\x7d"

/-- CPython repr() of a value decoded by json.loads (used for elements
nested inside containers when str() is taken of the container). -/
def pyRepr : Json → String
  | Json.null => "None"
  | Json.bool true => "True"
  | Json.bool false => "False"
  | Json.num n => toString n
  | Json.str s => String.mk (Char.ofNat 39 :: pyEscList s.data ++ [Char.ofNat 39])
  | Json.arr xs => "[" ++ pyReprItems xs ++ "]"
  | Json.obj kvs => "\x7b" ++ pyReprPairs kvs ++ "\x7d"

/-- Comma-separated reprs of list elements. -/
def pyReprItems : List Json → String
  | [] => ""
  | [x] => pyRepr x
  | x :: y :: xs => pyRepr x ++ ", " ++ pyReprItems (y :: xs)

/-- Comma-separated reprs of dict entries. -/
def pyReprPairs : List (String × Json) → String
  | [] => ""
  | [(k, v)] => pyRepr (Json.str k) ++ ": " ++ pyRepr v
  | (k, v) :: q :: qs =>
      pyRepr (Json.str k) ++ ": " ++ pyRepr v ++ ", " ++ pyReprPairs (q :: qs)

end

/-- The Python substring test needle in haystack, used both by the
scripts (the expression testing membership of the key error in a str
result) and by the theorems below to state that standard error contains
a given message. -/
def substr (needle hay : String) : Bool :=
  decide (needle.data <:+: hay.data)

/-- A wire-level JSON text together with the result json.loads would
produce on it: parsed is some value on success and none when json.loads
raises JSONDecodeError, in which case decodeMsg is the str(e) text of
that exception.  Used both for HTTP bodies and for JSON-typed
command-line flag values. -/
structure RawJson where
  raw : String
  parsed : Option Json
  decodeMsg : String

/-- Behaviour of the single call to urllib.request.urlopen: a 2xx
response returning a body, an HTTPError carrying a status code and an
error body, or a URLError (connection refused, DNS failure, timeout)
whose str(e) text is carried. -/
inductive NetResult where
  | ok : Int → RawJson → NetResult
  | httpError : Int → RawJson → NetResult
  | urlError : String → NetResult

/-- An outbound HTTP request as assembled by a script: full URL, method,
explicit headers, optional JSON payload, and the client-side timeout
passed to urlopen (none when the call passes no timeout argument). -/
structure Request where
  url : String
  method : String
  headers : List (String × String)
  payload : Option Json
  timeout : Option Nat

/-- Observable outcome of one script invocation: process exit code,
bytes written to standard output and to standard error, the outbound
requests issued, and whether an unhandled exception escaped (CPython
then prints a traceback to standard error and exits with code 1). -/
structure Outcome where
  exitCode : Nat
  stdout : String
  stderr : String
  requests : List Request
  crashed : Bool

/-- Result of a make_request helper call: either a returned value or an
exception propagating out of the helper uncaught. -/
inductive CallResult where
  | ret : Json → CallResult
  | raised : String → CallResult

/-- The CPython traceback text printed to standard error when an
exception reaches the top level, ending in the exception message. -/
def traceback (msg : String) : String :=
  "Traceback (most recent call last):\n" ++ msg ++ "\n"

/-- Message of the AttributeError raised by calling .get on a decoded
value that is not a dict. -/
def attrGetMsg (v : Json) : String :=
  "AttributeError: \x27" ++ pyTypeName v
    ++ "\x27 object has no attribute \x27get\x27"

/-- Message of the TypeError raised by the membership test for the key
error when the result is neither a container nor a string. -/
def typeErrMsg (v : Json) : String :=
  "TypeError: argument of type \x27" ++ pyTypeName v
    ++ "\x27 is not iterable"

/-- Message of the TypeError raised by indexing a decoded list or str
with the string key error. -/
def indexErrMsg (v : Json) : String :=
  match v with
  | Json.arr _ => "TypeError: list indices must be integers or slices, not str"
  | _ => "TypeError: string indices must be integers"

/-- The agents-style make_request helper shared verbatim (module names
aside) by create_agent.py, delete_agent.py, delete_queue.py,
get_agent_status.py, get_queue_info.py, list_agents.py and
list_queues.py: urlopen with timeout=30 inside a try; on success the
body is json.loads-decoded; an HTTPError body is decoded and its error
field extracted with .get (an AttributeError escapes when the decoded
body is not a dict, because the inner handler only catches
JSONDecodeError and the outer handlers do not guard the HTTPError
branch); any other exception, JSONDecodeError and URLError included, is
caught by the bare except Exception clause and wrapped as
a dict with key error holding str(e). -/
def makeRequestA (net : NetResult) : CallResult :=
  match net with
  | NetResult.ok _ body =>
      match body.parsed with
      | some v => CallResult.ret v
      | none => CallResult.ret (Json.obj [("error", Json.str body.decodeMsg)])
  | NetResult.httpError code body =>
      match body.parsed with
      | some ed =>
          match ed with
          | Json.obj kvs =>
              CallResult.ret (Json.obj
                [("error", (lookupLast kvs "error").getD (Json.str body.raw)),
                 ("status", Json.num code)])
          | other => CallResult.raised (attrGetMsg other)
      | none =>
          CallResult.ret (Json.obj
            [("error", Json.str body.raw), ("status", Json.num code)])
  | NetResult.urlError msg =>
      CallResult.ret (Json.obj [("error", Json.str msg)])

/-- The operator-style make_request helper shared verbatim by
check_task_operator_lock.py, clear_task_operator_lock.py,
enable_task_operator.py and disable_task_operator.py: urlopen with no
timeout argument; on HTTPError the fallback error text is the string
HTTP code colon body; a URLError is wrapped with the leading text
Connection error; the .get AttributeError on a decoded non-dict HTTP error body
escapes exactly as in the agents-style helper. -/
def makeRequestB (net : NetResult) : CallResult :=
  match net with
  | NetResult.ok _ body =>
      match body.parsed with
      | some v => CallResult.ret v
      | none => CallResult.ret (Json.obj [("error", Json.str body.decodeMsg)])
  | NetResult.httpError code body =>
      match body.parsed with
      | some ed =>
          match ed with
          | Json.obj kvs =>
              CallResult.ret (Json.obj
                [("error", (lookupLast kvs "error").getD
                    (Json.str ("HTTP " ++ toString code ++ ": " ++ body.raw)))])
          | other => CallResult.raised (attrGetMsg other)
      | none =>
          CallResult.ret (Json.obj
            [("error", Json.str ("HTTP " ++ toString code ++ ": " ++ body.raw))])
  | NetResult.urlError msg =>
      CallResult.ret (Json.obj [("error", Json.str ("Connection error: " ++ msg))])

/-- The Python membership test for the key error applied to the helper
result: key lookup on a dict, element equality on a list, substring
search on a str, and none when the test raises TypeError (int, bool,
float, None operands are not iterable). -/
def errorCheck : Json → Option Bool
  | Json.obj kvs => some (kvs.any (fun p => p.1 == "error"))
  | Json.arr xs => some (xs.any (fun v =>
      match v with
      | Json.str s => s == "error"
      | _ => false))
  | Json.str s => some (substr "error" s)
  | _ => none

/-- Outcome assembly for the agents-style scripts: on an error result
the dict is pretty-printed to standard error and the process exits 1,
otherwise the result is pretty-printed to standard output and the
process exits 0.  print appends one newline. -/
def finishA (reqs : List Request) (r : CallResult) : Outcome :=
  match r with
  | CallResult.raised m =>
      { exitCode := 1, stdout := "", stderr := traceback m,
        requests := reqs, crashed := true }
  | CallResult.ret v =>
      match errorCheck v with
      | none =>
          { exitCode := 1, stdout := "", stderr := traceback (typeErrMsg v),
            requests := reqs, crashed := true }
      | some true =>
          { exitCode := 1, stdout := "", stderr := dumps v ++ "\n",
            requests := reqs, crashed := false }
      | some false =>
          { exitCode := 0, stdout := dumps v ++ "\n", stderr := "",
            requests := reqs, crashed := false }

/-- Outcome assembly for the task-operator scripts: on an error result
the script prints the f-string Error colon followed by str of the error
entry (indexing a non-dict result with a string key raises TypeError,
which escapes), otherwise the result is pretty-printed to standard
output and the process exits 0. -/
def finishB (reqs : List Request) (r : CallResult) : Outcome :=
  match r with
  | CallResult.raised m =>
      { exitCode := 1, stdout := "", stderr := traceback m,
        requests := reqs, crashed := true }
  | CallResult.ret v =>
      match errorCheck v with
      | none =>
          { exitCode := 1, stdout := "", stderr := traceback (typeErrMsg v),
            requests := reqs, crashed := true }
      | some true =>
          match v with
          | Json.obj kvs =>
              { exitCode := 1, stdout := "",
                stderr := "Error: "
                  ++ pyStr ((lookupLast kvs "error").getD Json.null) ++ "\n",
                requests := reqs, crashed := false }
          | other =>
              { exitCode := 1, stdout := "", stderr := traceback (indexErrMsg other),
                requests := reqs, crashed := true }
      | some false =>
          { exitCode := 0, stdout := dumps v ++ "\n", stderr := "",
            requests := reqs, crashed := false }

/-- One round through an agents-style script after the URL is built. -/
def runA (reqs : List Request) (net : NetResult) : Outcome :=
  finishA reqs (makeRequestA net)

/-- One round through a task-operator script after the URL is built. -/
def runB (reqs : List Request) (net : NetResult) : Outcome :=
  finishB reqs (makeRequestB net)

/-- The hardcoded fallback base URL shared by every script. -/
def defaultBaseUrl : String := "http://cursor-agents:3002"

/-- os.getenv with a default: the default is used only when the
variable is unset; a variable set to the empty string is returned
as the empty string. -/
def getenvD (env : Option String) (d : String) : String :=
  env.getD d

/-- The Content-Type header passed explicitly by create_agent and the
four task-operator scripts. -/
def ctJson : List (String × String) := [("Content-Type", "application/json")]

/-- Parsed command line of create_agent.py after argparse: name and
targetUrl are required strings, method comes from a fixed choice list
defaulting to POST, headers is a raw string defaulting to the two-brace
empty-object text, body, schedule and queue are optional (none when the
flag is absent; argparse stores an empty string when the flag is passed
with an empty value), oneTime is a store-true flag and timeout an
integer defaulting to 30000. -/
structure CreateAgentArgs where
  name : String
  targetUrl : String
  method : String
  headers : RawJson
  body : Option RawJson
  schedule : Option String
  oneTime : Bool
  timeout : Int
  queue : Option String

/-- Python truthiness of an optional string flag: false when the flag
is absent and when its value is the empty string. -/
def optTruthy : Option String → Bool
  | none => false
  | some s => s ≠ ""

/-- Python truthiness of an optional JSON-text flag value. -/
def rawTruthy : Option RawJson → Bool
  | none => false
  | some b => b.raw ≠ ""

/-- Result of validate_arguments in create_agent.py: success, a usage
error reported through sys.exit(1) after printing to standard error, or
an exception escaping the function uncaught. -/
inductive Validation where
  | ok : Validation
  | usageExit : String → Validation
  | uncaught : String → Validation

/-- validate_arguments from create_agent.py: first the one-time or
schedule requirement, then json.loads on the headers flag (a decoded
non-dict raises ValueError, which the handler does not catch since it
only catches JSONDecodeError), then json.loads on the body flag when
that flag is truthy. -/
def validate_arguments (a : CreateAgentArgs) : Validation :=
  if !a.oneTime && !(optTruthy a.schedule) then
    Validation.usageExit
      "Error: Either --one-time must be true or --schedule must be provided"
  else
    match a.headers.parsed with
    | none =>
        Validation.usageExit
          ("Error: Invalid JSON in --headers: " ++ a.headers.decodeMsg)
    | some hv =>
        if hv.isObj then
          match a.body with
          | some b =>
              if b.raw ≠ "" then
                match b.parsed with
                | none =>
                    Validation.usageExit
                      ("Error: Invalid JSON in --body: " ++ b.decodeMsg)
                | some _ => Validation.ok
              else Validation.ok
          | none => Validation.ok
        else Validation.uncaught "ValueError: Headers must be a JSON object"

/-- build_agent_config from create_agent.py: the six unconditional
fields in source order, then body when the body flag is truthy,
schedule when one-time is false and the schedule flag is truthy, and
queue when the queue flag is truthy. -/
def build_agent_config (a : CreateAgentArgs) : List (String × Json) :=
  [("name", Json.str a.name),
   ("targetUrl", Json.str a.targetUrl),
   ("method", Json.str a.method),
   ("headers", a.headers.parsed.getD Json.null),
   ("oneTime", Json.bool a.oneTime),
   ("timeout", Json.num a.timeout)]
  ++ (if rawTruthy a.body then
        [("body", ((a.body.bind (fun b => b.parsed)).getD Json.null))]
      else [])
  ++ (if !a.oneTime && optTruthy a.schedule then
        [("schedule", Json.str (a.schedule.getD ""))]
      else [])
  ++ (if optTruthy a.queue then
        [("queue", Json.str (a.queue.getD ""))]
      else [])

/-- One invocation of one of the eleven scripts with its parsed
command-line arguments. -/
inductive Invocation where
  | checkLock : Invocation
  | clearLock : Invocation
  | createAgent : CreateAgentArgs → Invocation
  | deleteAgent : String → Invocation
  | deleteQueue : String → Invocation
  | disableTaskOperator : Invocation
  | enableTaskOperator : String → Invocation
  | getAgentStatus : String → Invocation
  | getQueueInfo : String → Invocation
  | listAgents : Invocation
  | listQueues : Invocation

/-- The request path appended to the resolved base URL by each script. -/
def Invocation.path : Invocation → String
  | Invocation.checkLock => "/task-operator/lock"
  | Invocation.clearLock => "/task-operator/lock"
  | Invocation.createAgent _ => "/agents"
  | Invocation.deleteAgent name => "/agents/" ++ name
  | Invocation.deleteQueue q => "/queues/" ++ q
  | Invocation.disableTaskOperator => "/task-operator"
  | Invocation.enableTaskOperator _ => "/task-operator"
  | Invocation.getAgentStatus name => "/agents/" ++ name
  | Invocation.getQueueInfo q => "/queues/" ++ q
  | Invocation.listAgents => "/agents"
  | Invocation.listQueues => "/queues"

/-- Whether the invocation reaches its network call: every script other
than create_agent always does, and create_agent does exactly when
validate_arguments succeeds. -/
def issuesRequest : Invocation → Bool
  | Invocation.createAgent a =>
      match validate_arguments a with
      | Validation.ok => true
      | _ => false
  | _ => true

/-- The main entry point of each script, as a function from the
CURSOR_AGENTS_URL environment value (none when unset) and the network
behaviour of the one outbound call to the observable outcome.  Each
branch mirrors the corresponding main function: resolve the base URL
with os.getenv, build the URL by string formatting, call the
make_request helper of that script, and report the result. -/
def Invocation.run : Invocation → Option String → NetResult → Outcome
  | Invocation.checkLock, env, net =>
      let apiUrl := getenvD env defaultBaseUrl
      let url := apiUrl ++ "/task-operator/lock"
      runB [{ url := url, method := "GET", headers := ctJson,
              payload := none, timeout := none }] net
  | Invocation.clearLock, env, net =>
      let apiUrl := getenvD env defaultBaseUrl
      let url := apiUrl ++ "/task-operator/lock"
      runB [{ url := url, method := "DELETE", headers := ctJson,
              payload := none, timeout := none }] net
  | Invocation.createAgent a, env, net =>
      match validate_arguments a with
      | Validation.usageExit m =>
          { exitCode := 1, stdout := "", stderr := m ++ "\n",
            requests := [], crashed := false }
      | Validation.uncaught m =>
          { exitCode := 1, stdout := "", stderr := traceback m,
            requests := [], crashed := true }
      | Validation.ok =>
          let config := build_agent_config a
          let apiUrl := getenvD env defaultBaseUrl
          let url := apiUrl ++ "/agents"
          runA [{ url := url, method := "POST", headers := ctJson,
                  payload := some (Json.obj config), timeout := some 30 }] net
  | Invocation.deleteAgent name, env, net =>
      let apiUrl := getenvD env defaultBaseUrl
      let url := apiUrl ++ "/agents/" ++ name
      runA [{ url := url, method := "DELETE", headers := [],
              payload := none, timeout := some 30 }] net
  | Invocation.deleteQueue q, env, net =>
      let apiUrl := getenvD env defaultBaseUrl
      let url := apiUrl ++ "/queues/" ++ q
      runA [{ url := url, method := "DELETE", headers := [],
              payload := none, timeout := some 30 }] net
  | Invocation.disableTaskOperator, env, net =>
      let apiUrl := getenvD env defaultBaseUrl
      let url := apiUrl ++ "/task-operator"
      runB [{ url := url, method := "DELETE", headers := ctJson,
              payload := none, timeout := none }] net
  | Invocation.enableTaskOperator queue, env, net =>
      let apiUrl := getenvD env defaultBaseUrl
      let url := apiUrl ++ "/task-operator"
      runB [{ url := url, method := "POST", headers := ctJson,
              payload := if queue ≠ "" then
                  some (Json.obj [("queue", Json.str queue)])
                else none,
              timeout := none }] net
  | Invocation.getAgentStatus name, env, net =>
      let apiUrl := getenvD env defaultBaseUrl
      let url := apiUrl ++ "/agents/" ++ name
      runA [{ url := url, method := "GET", headers := [],
              payload := none, timeout := some 30 }] net
  | Invocation.getQueueInfo q, env, net =>
      let apiUrl := getenvD env defaultBaseUrl
      let url := apiUrl ++ "/queues/" ++ q
      runA [{ url := url, method := "GET", headers := [],
              payload := none, timeout := some 30 }] net
  | Invocation.listAgents, env, net =>
      let apiUrl := getenvD env defaultBaseUrl
      let url := apiUrl ++ "/agents"
      runA [{ url := url, method := "GET", headers := [],
              payload := none, timeout := some 30 }] net
  | Invocation.listQueues, env, net =>
      let apiUrl := getenvD env defaultBaseUrl
      let url := apiUrl ++ "/queues"
      runA [{ url := url, method := "GET", headers := [],
              payload := none, timeout := some 30 }] net

/-- A character that json.dumps renders unchanged inside a string
literal: printable ASCII other than the quote and the backslash. -/
def plainChar (c : Char) : Bool :=
  (32 ≤ c.toNat) && (c.toNat < 127) && (c != '"') && (c != '\\')

/-- A string that json.dumps renders unchanged between its quotes. -/
def jsonPlain (s : String) : Bool := s.data.all plainChar

theorem escChar_plain (c : Char) (h : plainChar c = true) : escChar c = [c] := by
  unfold plainChar at h
  simp only [Bool.and_eq_true, decide_eq_true_eq, bne_iff_ne, ne_eq] at h
  obtain ⟨⟨⟨hge, hlt⟩, hq⟩, hbs⟩ := h
  unfold escChar
  rw [if_neg hq, if_neg hbs,
      if_neg (fun hc => absurd hge (by rw [hc]; decide)),
      if_neg (fun hc => absurd hge (by rw [hc]; decide)),
      if_neg (fun hc => absurd hge (by rw [hc]; decide)),
      if_neg (fun hc => by omega),
      if_neg (fun hc => by omega),
      if_neg (fun hc => by omega),
      if_pos hlt]

theorem escList_plain (l : List Char) (h : l.all plainChar = true) :
    escList l = l := by
  induction l with
  | nil => rfl
  | cons c cs ih =>
      simp only [List.all_cons, Bool.and_eq_true] at h
      simp [escList, escChar_plain c h.1, ih h.2]

theorem string_ext (a b : String) (h : a.data = b.data) : a = b := by
  cases a; cases b; exact congrArg String.mk h

theorem dumpStr_plain (s : String) (h : jsonPlain s = true) :
    dumpStr s = "\"" ++ s ++ "\"" := by
  unfold dumpStr
  rw [escList_plain s.data h]
  apply string_ext
  simp [String.data_append]

theorem substr_self (s : String) : substr s s = true := by
  simp [substr]

theorem substr_appendL (x h k : String) (hx : substr x h = true) :
    substr x (h ++ k) = true := by
  simp only [substr, decide_eq_true_eq] at hx ⊢
  rw [String.data_append]
  exact hx.trans ⟨[], k.data, by simp⟩

theorem substr_appendR (x h k : String) (hx : substr x h = true) :
    substr x (k ++ h) = true := by
  simp only [substr, decide_eq_true_eq] at hx ⊢
  rw [String.data_append]
  exact hx.trans ⟨k.data, [], by simp⟩

theorem substr_mid (a x b : String) : substr x (a ++ x ++ b) = true :=
  substr_appendL x (a ++ x) b (substr_appendR x x a (substr_self x))

theorem indentStr_zero : indentStr 0 = "" := rfl

theorem indentStr_one : indentStr 1 = "  " := rfl

theorem dumpStr_error_lit : dumpStr "error" = "\"error\"" := rfl

theorem dumpStr_status_lit : dumpStr "status" = "\"status\"" := rfl

theorem dumps_err1 (x : String) (hx : jsonPlain x = true) :
    dumps (Json.obj [("error", Json.str x)])
      = "\x7b\n  \"error\": \"" ++ x ++ "\"\n\x7d" := by
  simp only [dumps, dumpsVal, dumpsPairs, indentStr_zero, indentStr_one,
    dumpStr_error_lit, dumpStr_plain x hx]
  apply string_ext
  simp [String.data_append, indentStr_one]

theorem dumps_err2 (x : String) (n : Int) (hx : jsonPlain x = true) :
    dumps (Json.obj [("error", Json.str x), ("status", Json.num n)])
      = "\x7b\n  \"error\": \"" ++ x ++ ("\",\n  \"status\": " ++ toString n ++ "\n\x7d") := by
  simp only [dumps, dumpsVal, dumpsPairs, indentStr_zero, indentStr_one,
    dumpStr_error_lit, dumpStr_status_lit, dumpStr_plain x hx]
  apply string_ext
  simp [String.data_append, indentStr_one]

theorem errorCheck_err1 (w : Json) :
    errorCheck (Json.obj [("error", w)]) = some true := by
  simp [errorCheck]

theorem errorCheck_err2 (w u : Json) :
    errorCheck (Json.obj [("error", w), ("status", u)]) = some true := by
  simp [errorCheck]

theorem lookupLast_err1 (w : Json) :
    lookupLast [("error", w)] "error" = some w := rfl

theorem lookupLast_err2 (w u : Json) :
    lookupLast [("error", w), ("status", u)] "error" = some w := rfl

/-- Claim C1 (amended): for every command whose invocation reaches its
network call, if the HTTP call succeeds with status 200 and the body
decodes to a JSON value B on which the error membership test of the
script is defined and false (B is an object without the key error, an
array without the element error, or a string not containing error),
then the tool exits 0 and writes exactly the 2-space-indent
pretty-printed form of B, followed by the newline print appends, to
standard output, and nothing to standard error.  The claim as frozen,
quantified over every JSON value B, fails: a 200 body that is an object
with an error key is routed to standard error with exit code 1. -/
theorem success_prints_pretty_json (inv : Invocation) (env : Option String)
    (code : Int) (raw m : String) (B : Json)
    (hreq : issuesRequest inv = true) (hB : errorCheck B = some false) :
    ((inv.run env (NetResult.ok code ⟨raw, some B, m⟩)).exitCode = 0)
    ∧ ((inv.run env (NetResult.ok code ⟨raw, some B, m⟩)).stdout = dumps B ++ "\n")
    ∧ ((inv.run env (NetResult.ok code ⟨raw, some B, m⟩)).stderr = "") := by
  cases inv with
  | createAgent a =>
      cases hv : validate_arguments a with
      | ok =>
          simp [Invocation.run, hv, runA, makeRequestA, finishA, hB]
      | usageExit msg =>
          simp [issuesRequest, hv] at hreq
      | uncaught msg =>
          simp [issuesRequest, hv] at hreq
  | checkLock =>
      simp [Invocation.run, runB, makeRequestB, finishB, hB]
  | clearLock =>
      simp [Invocation.run, runB, makeRequestB, finishB, hB]
  | disableTaskOperator =>
      simp [Invocation.run, runB, makeRequestB, finishB, hB]
  | enableTaskOperator q =>
      simp [Invocation.run, runB, makeRequestB, finishB, hB]
  | deleteAgent n =>
      simp [Invocation.run, runA, makeRequestA, finishA, hB]
  | deleteQueue q =>
      simp [Invocation.run, runA, makeRequestA, finishA, hB]
  | getAgentStatus n =>
      simp [Invocation.run, runA, makeRequestA, finishA, hB]
  | getQueueInfo q =>
      simp [Invocation.run, runA, makeRequestA, finishA, hB]
  | listAgents =>
      simp [Invocation.run, runA, makeRequestA, finishA, hB]
  | listQueues =>
      simp [Invocation.run, runA, makeRequestA, finishA, hB]

/-- Witness for C1 at a concrete invocation: list_agents against a 200
response with an object body free of the key error. -/
theorem success_prints_pretty_json_witness :
    ((Invocation.listAgents.run none (NetResult.ok 200
        ⟨"\x7b\"agents\": []\x7d", some (Json.obj [("agents", Json.arr [])]), ""⟩)).exitCode = 0)
    ∧ ((Invocation.listAgents.run none (NetResult.ok 200
        ⟨"\x7b\"agents\": []\x7d", some (Json.obj [("agents", Json.arr [])]), ""⟩)).stdout
        = dumps (Json.obj [("agents", Json.arr [])]) ++ "\n")
    ∧ ((Invocation.listAgents.run none (NetResult.ok 200
        ⟨"\x7b\"agents\": []\x7d", some (Json.obj [("agents", Json.arr [])]), ""⟩)).stderr = "") :=
  success_prints_pretty_json Invocation.listAgents none 200
    "\x7b\"agents\": []\x7d" "" (Json.obj [("agents", Json.arr [])]) rfl rfl

/-- Counterexample to C1 as frozen: a 200 response whose JSON body is
the object mapping error to X makes list_agents exit 1 with empty
standard output instead of exiting 0 and printing the body. -/
theorem c1_error_key_body_counterexample :
    ((Invocation.listAgents.run none (NetResult.ok 200
        ⟨"\x7b\"error\": \"X\"\x7d", some (Json.obj [("error", Json.str "X")]), ""⟩)).exitCode ≠ 0)
    ∧ ((Invocation.listAgents.run none (NetResult.ok 200
        ⟨"\x7b\"error\": \"X\"\x7d", some (Json.obj [("error", Json.str "X")]), ""⟩)).stdout = "") := by
  constructor
  · decide
  · rfl

theorem finishA_requests (reqs : List Request) (r : CallResult) :
    (finishA reqs r).requests = reqs := by
  cases r with
  | raised m => rfl
  | ret v =>
      unfold finishA
      rcases h : errorCheck v with _ | b
      · simp [h]
      · cases b <;> simp [h]

theorem finishB_requests (reqs : List Request) (r : CallResult) :
    (finishB reqs r).requests = reqs := by
  cases r with
  | raised m => rfl
  | ret v =>
      unfold finishB
      rcases h : errorCheck v with _ | b
      · simp [h]
      · cases b
        · simp [h]
        · cases v <;> simp [h]

theorem runA_requests (reqs : List Request) (net : NetResult) :
    (runA reqs net).requests = reqs := finishA_requests reqs (makeRequestA net)

theorem runB_requests (reqs : List Request) (net : NetResult) :
    (runB reqs net).requests = reqs := finishB_requests reqs (makeRequestB net)

/-- Claim C2 (amended): every command builds its request URL from the
base resolved by os.getenv: the value of CURSOR_AGENTS_URL used
verbatim whenever the variable is set, with no trailing-slash
normalization, and the default http://cursor-agents:3002 only when the
variable is unset.  The claim as frozen also asserted the default for a
variable set to the empty string; os.getenv returns the set value even
when it is empty, so the empty string is then used as the base. -/
theorem base_url_resolution (inv : Invocation) (env : Option String)
    (net : NetResult) (hreq : issuesRequest inv = true) :
    ((inv.run env net).requests.map (fun r => r.url)
      = [getenvD env defaultBaseUrl ++ inv.path])
    ∧ (∀ s, env = some s → getenvD env defaultBaseUrl = s)
    ∧ (env = none → getenvD env defaultBaseUrl = defaultBaseUrl) := by
  refine ⟨?_, fun s hs => by rw [hs]; rfl, fun hn => by rw [hn]; rfl⟩
  cases inv with
  | createAgent a =>
      cases hv : validate_arguments a with
      | ok =>
          simp [Invocation.run, hv, runA_requests, Invocation.path]
      | usageExit msg => simp [issuesRequest, hv] at hreq
      | uncaught msg => simp [issuesRequest, hv] at hreq
  | checkLock => simp [Invocation.run, runB_requests, Invocation.path]
  | clearLock => simp [Invocation.run, runB_requests, Invocation.path]
  | disableTaskOperator => simp [Invocation.run, runB_requests, Invocation.path]
  | enableTaskOperator q => simp [Invocation.run, runB_requests, Invocation.path]
  | deleteAgent n =>
      simp [Invocation.run, runA_requests, Invocation.path, String.append_assoc]
  | deleteQueue q =>
      simp [Invocation.run, runA_requests, Invocation.path, String.append_assoc]
  | getAgentStatus n =>
      simp [Invocation.run, runA_requests, Invocation.path, String.append_assoc]
  | getQueueInfo q =>
      simp [Invocation.run, runA_requests, Invocation.path, String.append_assoc]
  | listAgents => simp [Invocation.run, runA_requests, Invocation.path]
  | listQueues => simp [Invocation.run, runA_requests, Invocation.path]

/-- Witness for C2: list_agents with the variable set targets the set
value verbatim; the Option facts are discharged at that instance. -/
theorem base_url_resolution_witness :
    ((Invocation.listAgents.run (some "http://example:9000")
        (NetResult.urlError "refused")).requests.map (fun r => r.url)
      = [getenvD (some "http://example:9000") defaultBaseUrl
          ++ Invocation.listAgents.path])
    ∧ (∀ s, some "http://example:9000" = some s →
        getenvD (some "http://example:9000") defaultBaseUrl = s)
    ∧ (some "http://example:9000" = none →
        getenvD (some "http://example:9000") defaultBaseUrl = defaultBaseUrl) :=
  base_url_resolution Invocation.listAgents (some "http://example:9000")
    (NetResult.urlError "refused") rfl

/-- Counterexample to C2 as frozen: with CURSOR_AGENTS_URL set to the
empty string, the request targets the bare path, not the default base. -/
theorem c2_empty_env_counterexample :
    ((Invocation.listAgents.run (some "") (NetResult.urlError "refused")).requests.map
        (fun r => r.url) = ["/agents"])
    ∧ "/agents" ≠ defaultBaseUrl ++ "/agents" := by
  constructor
  · rfl
  · decide

/-- Claim C3 (confirmed): create_agent with the one-time flag absent
and the schedule flag absent or empty prints the usage error to
standard error, exits 1, and issues no outbound request whatever the
network would have answered. -/
theorem create_agent_requires_schedule (a : CreateAgentArgs)
    (env : Option String) (net : NetResult)
    (h1 : a.oneTime = false) (h2 : optTruthy a.schedule = false) :
    (((Invocation.createAgent a).run env net).exitCode = 1)
    ∧ (((Invocation.createAgent a).run env net).stderr
        = "Error: Either --one-time must be true or --schedule must be provided\n")
    ∧ (((Invocation.createAgent a).run env net).requests = []) := by
  have hv : validate_arguments a = Validation.usageExit
      "Error: Either --one-time must be true or --schedule must be provided" := by
    unfold validate_arguments
    rw [h1, h2]
    simp
  simp [Invocation.run, hv]

/-- Witness for C3 at concrete arguments with both flags absent. -/
theorem create_agent_requires_schedule_witness :
    ((((Invocation.createAgent
        { name := "t", targetUrl := "http://x", method := "POST",
          headers := { raw := "\x7b\x7d", parsed := some (Json.obj []), decodeMsg := "" },
          body := none, schedule := none, oneTime := false,
          timeout := 30000, queue := none }).run none
        (NetResult.ok 200 ⟨"null", some Json.null, ""⟩)).exitCode = 1))
    ∧ ((((Invocation.createAgent
        { name := "t", targetUrl := "http://x", method := "POST",
          headers := { raw := "\x7b\x7d", parsed := some (Json.obj []), decodeMsg := "" },
          body := none, schedule := none, oneTime := false,
          timeout := 30000, queue := none }).run none
        (NetResult.ok 200 ⟨"null", some Json.null, ""⟩)).stderr
        = "Error: Either --one-time must be true or --schedule must be provided\n"))
    ∧ ((((Invocation.createAgent
        { name := "t", targetUrl := "http://x", method := "POST",
          headers := { raw := "\x7b\x7d", parsed := some (Json.obj []), decodeMsg := "" },
          body := none, schedule := none, oneTime := false,
          timeout := 30000, queue := none }).run none
        (NetResult.ok 200 ⟨"null", some Json.null, ""⟩)).requests = [])) :=
  create_agent_requires_schedule
    { name := "t", targetUrl := "http://x", method := "POST",
      headers := { raw := "\x7b\x7d", parsed := some (Json.obj []), decodeMsg := "" },
      body := none, schedule := none, oneTime := false,
      timeout := 30000, queue := none }
    none (NetResult.ok 200 ⟨"null", some Json.null, ""⟩) rfl rfl

/-- Claim C4 (amended): when the schedule requirement is satisfied and
the headers flag parses as JSON but not as an object, create_agent
exits 1 before any network call; the validation message Headers must be
a JSON object reaches standard error through an uncaught ValueError
(the handler catches only JSONDecodeError), so the process terminates
by unhandled exception rather than by the formatted usage path. -/
theorem create_agent_headers_not_object (a : CreateAgentArgs)
    (env : Option String) (net : NetResult) (v : Json)
    (hs : (!a.oneTime && !(optTruthy a.schedule)) = false)
    (hp : a.headers.parsed = some v) (hv : v.isObj = false) :
    (((Invocation.createAgent a).run env net).exitCode = 1)
    ∧ (((Invocation.createAgent a).run env net).requests = [])
    ∧ (((Invocation.createAgent a).run env net).crashed = true)
    ∧ (substr "Headers must be a JSON object"
        ((Invocation.createAgent a).run env net).stderr = true) := by
  have hval : validate_arguments a
      = Validation.uncaught "ValueError: Headers must be a JSON object" := by
    unfold validate_arguments
    rw [hp]
    simp [hs, hv]
  have ho : (Invocation.createAgent a).run env net
      = { exitCode := 1, stdout := "",
          stderr := traceback "ValueError: Headers must be a JSON object",
          requests := [], crashed := true } := by
    simp [Invocation.run, hval]
  rw [ho]
  exact ⟨rfl, rfl, rfl, by decide⟩

/-- Concrete arguments for the C4 witness: one-time set, headers a
JSON array. -/
def c4WitnessArgs : CreateAgentArgs :=
  { name := "t", targetUrl := "http://x", method := "POST",
    headers := { raw := "[1,2]"
                 parsed := some (Json.arr [Json.num 1, Json.num 2])
                 decodeMsg := "" },
    body := none, schedule := none, oneTime := true,
    timeout := 30000, queue := none }

/-- Witness for C4 at the concrete arguments above. -/
theorem create_agent_headers_not_object_witness :
    (((Invocation.createAgent c4WitnessArgs).run none
        (NetResult.ok 200 { raw := "null", parsed := some Json.null, decodeMsg := "" })).exitCode = 1)
    ∧ (((Invocation.createAgent c4WitnessArgs).run none
        (NetResult.ok 200 { raw := "null", parsed := some Json.null, decodeMsg := "" })).requests = [])
    ∧ (((Invocation.createAgent c4WitnessArgs).run none
        (NetResult.ok 200 { raw := "null", parsed := some Json.null, decodeMsg := "" })).crashed = true)
    ∧ (substr "Headers must be a JSON object"
        (((Invocation.createAgent c4WitnessArgs).run none
        (NetResult.ok 200 { raw := "null", parsed := some Json.null, decodeMsg := "" })).stderr) = true) :=
  create_agent_headers_not_object c4WitnessArgs
    none (NetResult.ok 200 { raw := "null", parsed := some Json.null, decodeMsg := "" })
    (Json.arr [Json.num 1, Json.num 2]) rfl rfl rfl

/-- Arguments refuting C4 as frozen: headers parse as a JSON array, but
the schedule requirement also fails, and that check runs first. -/
def c4Args : CreateAgentArgs :=
  { name := "t", targetUrl := "http://x", method := "POST",
    headers := { raw := "[1,2]"
                 parsed := some (Json.arr [Json.num 1, Json.num 2])
                 decodeMsg := "" },
    body := none, schedule := none, oneTime := false,
    timeout := 30000, queue := none }

set_option maxRecDepth 8192 in
/-- Counterexample to C4 as frozen: with headers a JSON array but the
one-time and schedule flags both absent, the process exits 1 with no
network call, yet standard error carries only the schedule usage error
and no JSON-validation message at all. -/
theorem c4_schedule_check_first_counterexample :
    (c4Args.headers.parsed = some (Json.arr [Json.num 1, Json.num 2]))
    ∧ (((Invocation.createAgent c4Args).run none
        (NetResult.urlError "ignored")).exitCode = 1)
    ∧ (((Invocation.createAgent c4Args).run none
        (NetResult.urlError "ignored")).requests = [])
    ∧ (substr "JSON" (((Invocation.createAgent c4Args).run none
        (NetResult.urlError "ignored")).stderr) = false)
    ∧ (substr "Headers" (((Invocation.createAgent c4Args).run none
        (NetResult.urlError "ignored")).stderr) = false)
    ∧ (((Invocation.createAgent c4Args).run none
        (NetResult.urlError "ignored")).stderr
        = "Error: Either --one-time must be true or --schedule must be provided\n") := by
  exact ⟨rfl, rfl, rfl, by decide, by decide, rfl⟩

/-- Claim C5 (amended): for every create_agent invocation the assembled
payload contains exactly the keys name, targetUrl, method, headers,
oneTime and timeout, plus body when the body flag is provided with a
non-empty value, plus schedule when one-time is false and the schedule
flag is provided non-empty (so schedule is omitted whenever one-time is
set), plus queue when the queue flag is provided with a non-empty
value.  The claim as frozen conditions body and queue on the flag being
provided; the code tests Python truthiness, so a provided-but-empty
value is omitted. -/
theorem build_agent_config_keys (a : CreateAgentArgs) (k : String) :
    (k ∈ (build_agent_config a).map Prod.fst) ↔
      (k = "name" ∨ k = "targetUrl" ∨ k = "method" ∨ k = "headers"
        ∨ k = "oneTime" ∨ k = "timeout"
        ∨ (k = "body" ∧ rawTruthy a.body = true)
        ∨ (k = "schedule" ∧ a.oneTime = false ∧ optTruthy a.schedule = true)
        ∨ (k = "queue" ∧ optTruthy a.queue = true)) := by
  cases hb : rawTruthy a.body <;>
    cases ho : a.oneTime <;>
      cases hs : optTruthy a.schedule <;>
        cases hq : optTruthy a.queue <;>
          simp [build_agent_config, hb, ho, hs, hq]

/-- Witness for C5 at concrete arguments exercising the conditional
keys: one-time false with a schedule, a body and a queue provided. -/
theorem build_agent_config_keys_witness :
    ("schedule" ∈ (build_agent_config
      { name := "t", targetUrl := "http://x", method := "POST",
        headers := { raw := "\x7b\x7d", parsed := some (Json.obj []), decodeMsg := "" },
        body := some { raw := "\x7b\x7d", parsed := some (Json.obj []), decodeMsg := "" },
        schedule := some "0 0 * * *", oneTime := false,
        timeout := 30000, queue := some "q" }).map Prod.fst) ↔
      (("schedule" : String) = "name" ∨ ("schedule" : String) = "targetUrl"
        ∨ ("schedule" : String) = "method" ∨ ("schedule" : String) = "headers"
        ∨ ("schedule" : String) = "oneTime" ∨ ("schedule" : String) = "timeout"
        ∨ (("schedule" : String) = "body" ∧ rawTruthy (some
            { raw := "\x7b\x7d", parsed := some (Json.obj []), decodeMsg := "" }) = true)
        ∨ (("schedule" : String) = "schedule" ∧ false = false
            ∧ optTruthy (some "0 0 * * *") = true)
        ∨ (("schedule" : String) = "queue" ∧ optTruthy (some "q") = true)) :=
  build_agent_config_keys
    { name := "t", targetUrl := "http://x", method := "POST",
      headers := { raw := "\x7b\x7d", parsed := some (Json.obj []), decodeMsg := "" },
      body := some { raw := "\x7b\x7d", parsed := some (Json.obj []), decodeMsg := "" },
      schedule := some "0 0 * * *", oneTime := false,
      timeout := 30000, queue := some "q" } "schedule"

/-- Arguments refuting C5 as frozen: a valid one-time invocation where
the body flag is provided with an empty value. -/
def c5Args : CreateAgentArgs :=
  { name := "t", targetUrl := "http://x", method := "POST",
    headers := { raw := "\x7b\x7d", parsed := some (Json.obj []), decodeMsg := "" },
    body := some { raw := "", parsed := none, decodeMsg := "Expecting value" },
    schedule := none, oneTime := true, timeout := 30000, queue := none }

/-- Counterexample to C5 as frozen: the invocation is valid and the
body flag is provided, yet the assembled payload has no body key. -/
theorem c5_empty_body_counterexample :
    (validate_arguments c5Args = Validation.ok)
    ∧ (c5Args.body.isSome = true)
    ∧ ("body" ∉ (build_agent_config c5Args).map Prod.fst) := by
  exact ⟨rfl, rfl, by decide⟩

theorem run_eq_family (inv : Invocation) (env : Option String) (net : NetResult)
    (hreq : issuesRequest inv = true) :
    ∃ reqs : List Request,
      (inv.run env net = runA reqs net ∨ inv.run env net = runB reqs net)
      ∧ reqs.length = 1 := by
  cases inv with
  | createAgent a =>
      cases hv : validate_arguments a with
      | ok =>
          exact ⟨[{ url := getenvD env defaultBaseUrl ++ "/agents",
                    method := "POST", headers := ctJson,
                    payload := some (Json.obj (build_agent_config a)),
                    timeout := some 30 }],
                 Or.inl (by simp [Invocation.run, hv]), rfl⟩
      | usageExit m => simp [issuesRequest, hv] at hreq
      | uncaught m => simp [issuesRequest, hv] at hreq
  | checkLock => exact ⟨_, Or.inr rfl, rfl⟩
  | clearLock => exact ⟨_, Or.inr rfl, rfl⟩
  | disableTaskOperator => exact ⟨_, Or.inr rfl, rfl⟩
  | enableTaskOperator q => exact ⟨_, Or.inr rfl, rfl⟩
  | deleteAgent n => exact ⟨_, Or.inl rfl, rfl⟩
  | deleteQueue q => exact ⟨_, Or.inl rfl, rfl⟩
  | getAgentStatus n => exact ⟨_, Or.inl rfl, rfl⟩
  | getQueueInfo q => exact ⟨_, Or.inl rfl, rfl⟩
  | listAgents => exact ⟨_, Or.inl rfl, rfl⟩
  | listQueues => exact ⟨_, Or.inl rfl, rfl⟩

theorem runA_httpError_obj_err (reqs : List Request) (code : Int)
    (raw m x : String) (kvs : List (String × Json))
    (hlk : lookupLast kvs "error" = some (Json.str x))
    (hx : jsonPlain x = true) :
    ((runA reqs (NetResult.httpError code ⟨raw, some (Json.obj kvs), m⟩)).exitCode = 1)
    ∧ (substr x ((runA reqs (NetResult.httpError code ⟨raw, some (Json.obj kvs), m⟩)).stderr) = true) := by
  have h1 : runA reqs (NetResult.httpError code ⟨raw, some (Json.obj kvs), m⟩)
      = { exitCode := 1, stdout := "",
          stderr := dumps (Json.obj
            [("error", Json.str x), ("status", Json.num code)]) ++ "\n",
          requests := reqs, crashed := false } := by
    simp [runA, makeRequestA, hlk, finishA, errorCheck_err2]
  rw [h1]
  refine ⟨rfl, ?_⟩
  rw [dumps_err2 x code hx]
  exact substr_appendL _ _ _ (substr_mid _ _ _)

theorem runB_httpError_obj_err (reqs : List Request) (code : Int)
    (raw m x : String) (kvs : List (String × Json))
    (hlk : lookupLast kvs "error" = some (Json.str x)) :
    ((runB reqs (NetResult.httpError code ⟨raw, some (Json.obj kvs), m⟩)).exitCode = 1)
    ∧ (substr x ((runB reqs (NetResult.httpError code ⟨raw, some (Json.obj kvs), m⟩)).stderr) = true) := by
  have h1 : runB reqs (NetResult.httpError code ⟨raw, some (Json.obj kvs), m⟩)
      = { exitCode := 1, stdout := "", stderr := "Error: " ++ x ++ "\n",
          requests := reqs, crashed := false } := by
    simp [runB, makeRequestB, hlk, finishB, errorCheck_err1, lookupLast_err1, pyStr]
  rw [h1]
  exact ⟨rfl, substr_mid _ _ _⟩

theorem runA_httpError_nojson (reqs : List Request) (code : Int)
    (raw m : String) (hr : jsonPlain raw = true) :
    ((runA reqs (NetResult.httpError code ⟨raw, none, m⟩)).exitCode = 1)
    ∧ (substr raw ((runA reqs (NetResult.httpError code ⟨raw, none, m⟩)).stderr) = true)
    ∧ (substr (toString code) ((runA reqs (NetResult.httpError code ⟨raw, none, m⟩)).stderr) = true) := by
  have h1 : runA reqs (NetResult.httpError code ⟨raw, none, m⟩)
      = { exitCode := 1, stdout := "",
          stderr := dumps (Json.obj
            [("error", Json.str raw), ("status", Json.num code)]) ++ "\n",
          requests := reqs, crashed := false } := by
    simp [runA, makeRequestA, finishA, errorCheck_err2]
  rw [h1, dumps_err2 raw code hr]
  refine ⟨rfl, substr_appendL _ _ _ (substr_mid _ _ _), ?_⟩
  exact substr_appendL _ _ _ (substr_appendR _ _ _
    (substr_appendL _ _ _ (substr_appendR _ _ _ (substr_self _))))

theorem runB_httpError_nojson (reqs : List Request) (code : Int)
    (raw m : String) :
    ((runB reqs (NetResult.httpError code ⟨raw, none, m⟩)).exitCode = 1)
    ∧ (substr raw ((runB reqs (NetResult.httpError code ⟨raw, none, m⟩)).stderr) = true)
    ∧ (substr (toString code) ((runB reqs (NetResult.httpError code ⟨raw, none, m⟩)).stderr) = true) := by
  have h1 : runB reqs (NetResult.httpError code ⟨raw, none, m⟩)
      = { exitCode := 1, stdout := "",
          stderr := "Error: " ++ ("HTTP " ++ toString code ++ ": " ++ raw) ++ "\n",
          requests := reqs, crashed := false } := by
    simp [runB, makeRequestB, finishB, errorCheck_err1, lookupLast_err1, pyStr]
  rw [h1]
  refine ⟨rfl, ?_, ?_⟩
  · exact substr_appendL _ _ _ (substr_appendR _ _ _
      (substr_appendR _ _ _ (substr_self _)))
  · exact substr_appendL _ _ _ (substr_appendR _ _ _ (substr_appendL _ _ _
      (substr_appendL _ _ _ (substr_appendR _ _ _ (substr_self _)))))

theorem makeRequestA_nonobj (code : Int) (raw m : String) (v : Json)
    (hv : v.isObj = false) :
    makeRequestA (NetResult.httpError code ⟨raw, some v, m⟩)
      = CallResult.raised (attrGetMsg v) := by
  cases v <;> simp_all [makeRequestA, Json.isObj]

theorem makeRequestB_nonobj (code : Int) (raw m : String) (v : Json)
    (hv : v.isObj = false) :
    makeRequestB (NetResult.httpError code ⟨raw, some v, m⟩)
      = CallResult.raised (attrGetMsg v) := by
  cases v <;> simp_all [makeRequestB, Json.isObj]

/-- Claim C6 (amended): for every command reaching its network call and
every non-2xx response: when the body is a JSON object whose error
entry is a string, the tool exits 1 and standard error contains that
string (stated for strings that json.dumps renders unescaped); when the
body is not valid JSON, the tool exits 1 and standard error contains
both the raw body and the numeric status code; but when the body is
valid JSON and not an object, the error handler calls .get on a
non-dict, the resulting AttributeError escapes (only JSONDecodeError is
caught there), and the process dies with an unhandled exception (still
exit code 1) without surfacing the body or the status. -/
theorem http_error_reporting (inv : Invocation) (env : Option String)
    (code : Int) (hreq : issuesRequest inv = true) :
    (∀ (kvs : List (String × Json)) (raw m x : String),
      lookupLast kvs "error" = some (Json.str x) → jsonPlain x = true →
        ((inv.run env (NetResult.httpError code ⟨raw, some (Json.obj kvs), m⟩)).exitCode = 1
          ∧ substr x ((inv.run env (NetResult.httpError code ⟨raw, some (Json.obj kvs), m⟩)).stderr) = true))
    ∧ (∀ raw m : String, jsonPlain raw = true →
        ((inv.run env (NetResult.httpError code ⟨raw, none, m⟩)).exitCode = 1
          ∧ substr raw ((inv.run env (NetResult.httpError code ⟨raw, none, m⟩)).stderr) = true
          ∧ substr (toString code) ((inv.run env (NetResult.httpError code ⟨raw, none, m⟩)).stderr) = true))
    ∧ (∀ (raw m : String) (v : Json), v.isObj = false →
        ((inv.run env (NetResult.httpError code ⟨raw, some v, m⟩)).exitCode = 1
          ∧ (inv.run env (NetResult.httpError code ⟨raw, some v, m⟩)).crashed = true)) := by
  refine ⟨?_, ?_, ?_⟩
  · intro kvs raw m x hlk hx
    obtain ⟨reqs, hAB | hAB, _⟩ := run_eq_family inv env
      (NetResult.httpError code ⟨raw, some (Json.obj kvs), m⟩) hreq
    · rw [hAB]
      exact runA_httpError_obj_err reqs code raw m x kvs hlk hx
    · rw [hAB]
      exact runB_httpError_obj_err reqs code raw m x kvs hlk
  · intro raw m hr
    obtain ⟨reqs, hAB | hAB, _⟩ := run_eq_family inv env
      (NetResult.httpError code ⟨raw, none, m⟩) hreq
    · rw [hAB]
      exact runA_httpError_nojson reqs code raw m hr
    · rw [hAB]
      exact runB_httpError_nojson reqs code raw m
  · intro raw m v hv
    obtain ⟨reqs, hAB | hAB, _⟩ := run_eq_family inv env
      (NetResult.httpError code ⟨raw, some v, m⟩) hreq
    · rw [hAB, runA, makeRequestA_nonobj code raw m v hv]
      exact ⟨rfl, rfl⟩
    · rw [hAB, runB, makeRequestB_nonobj code raw m v hv]
      exact ⟨rfl, rfl⟩

/-- Witness for C6: check lock against a 404 whose body maps error to
X, instantiating the object case of the theorem; the other two cases
are instantiated at a non-JSON body and at a JSON-array body. -/
theorem http_error_reporting_witness :
    ((Invocation.checkLock.run none (NetResult.httpError 404
        ⟨"\x7b\"error\": \"X\"\x7d", some (Json.obj [("error", Json.str "X")]), ""⟩)).exitCode = 1)
    ∧ (substr "X" ((Invocation.checkLock.run none (NetResult.httpError 404
        ⟨"\x7b\"error\": \"X\"\x7d", some (Json.obj [("error", Json.str "X")]), ""⟩)).stderr) = true)
    ∧ ((Invocation.checkLock.run none (NetResult.httpError 500
        ⟨"oops", none, "Expecting value"⟩)).exitCode = 1)
    ∧ (substr "oops" ((Invocation.checkLock.run none (NetResult.httpError 500
        ⟨"oops", none, "Expecting value"⟩)).stderr) = true)
    ∧ ((Invocation.checkLock.run none (NetResult.httpError 500
        ⟨"[1, 2]", some (Json.arr [Json.num 1, Json.num 2]), ""⟩)).crashed = true) := by
  have h := http_error_reporting Invocation.checkLock none 404 rfl
  have h2 := http_error_reporting Invocation.checkLock none 500 rfl
  have ha := h.1 [("error", Json.str "X")] "\x7b\"error\": \"X\"\x7d" "" "X" rfl rfl
  have hb := h2.2.1 "oops" "Expecting value" rfl
  have hc := h2.2.2 "[1, 2]" "" (Json.arr [Json.num 1, Json.num 2]) rfl
  exact ⟨ha.1, ha.2, hb.1, hb.2.1, hc.2⟩

set_option maxRecDepth 8192 in
/-- Counterexample to C6 as frozen: a 500 response with the valid JSON
body of an array makes list_agents die on an AttributeError; the exit
code is 1 but neither the raw body nor the status code 500 appears on
standard error, which carries only the traceback. -/
theorem c6_nonobject_body_counterexample :
    (((Invocation.listAgents.run none (NetResult.httpError 500
        ⟨"[1, 2]", some (Json.arr [Json.num 1, Json.num 2]), ""⟩)).exitCode = 1)
    ∧ ((Invocation.listAgents.run none (NetResult.httpError 500
        ⟨"[1, 2]", some (Json.arr [Json.num 1, Json.num 2]), ""⟩)).crashed = true)
    ∧ (substr "[1, 2]" ((Invocation.listAgents.run none (NetResult.httpError 500
        ⟨"[1, 2]", some (Json.arr [Json.num 1, Json.num 2]), ""⟩)).stderr) = false)
    ∧ (substr "500" ((Invocation.listAgents.run none (NetResult.httpError 500
        ⟨"[1, 2]", some (Json.arr [Json.num 1, Json.num 2]), ""⟩)).stderr) = false)) := by
  exact ⟨rfl, rfl, by decide, by decide⟩

theorem finishA_err1 (reqs : List Request) (x : String)
    (hx : jsonPlain x = true) :
    ((finishA reqs (CallResult.ret (Json.obj [("error", Json.str x)]))).exitCode = 1)
    ∧ ((finishA reqs (CallResult.ret (Json.obj [("error", Json.str x)]))).crashed = false)
    ∧ (substr x ((finishA reqs (CallResult.ret (Json.obj [("error", Json.str x)]))).stderr) = true) := by
  have h1 : finishA reqs (CallResult.ret (Json.obj [("error", Json.str x)]))
      = { exitCode := 1, stdout := "",
          stderr := dumps (Json.obj [("error", Json.str x)]) ++ "\n",
          requests := reqs, crashed := false } := by
    simp [finishA, errorCheck_err1]
  rw [h1, dumps_err1 x hx]
  exact ⟨rfl, rfl, substr_appendL _ _ _ (substr_mid _ _ _)⟩

theorem finishB_err1 (reqs : List Request) (x : String) :
    ((finishB reqs (CallResult.ret (Json.obj [("error", Json.str x)]))).exitCode = 1)
    ∧ ((finishB reqs (CallResult.ret (Json.obj [("error", Json.str x)]))).crashed = false)
    ∧ (substr x ((finishB reqs (CallResult.ret (Json.obj [("error", Json.str x)]))).stderr) = true) := by
  have h1 : finishB reqs (CallResult.ret (Json.obj [("error", Json.str x)]))
      = { exitCode := 1, stdout := "", stderr := "Error: " ++ x ++ "\n",
          requests := reqs, crashed := false } := by
    simp [finishB, errorCheck_err1, lookupLast_err1, pyStr]
  rw [h1]
  exact ⟨rfl, rfl, substr_mid _ _ _⟩

/-- Claim C7 (confirmed): for every command reaching its network call,
a transport-level failure of urlopen (connection refused, DNS failure,
timeout) is caught: the process exits 1 without an unhandled fault and
standard error contains the description text of the failure (stated for
description texts that json.dumps renders unescaped, which covers the
urllib texts; the task-operator scripts additionally precede it with
Connection error, the agents-style scripts embed the bare str(e) in
their JSON error object). -/
theorem transport_error_handling (inv : Invocation) (env : Option String)
    (msg : String) (hreq : issuesRequest inv = true)
    (hm : jsonPlain msg = true) :
    ((inv.run env (NetResult.urlError msg)).exitCode = 1)
    ∧ ((inv.run env (NetResult.urlError msg)).crashed = false)
    ∧ (substr msg ((inv.run env (NetResult.urlError msg)).stderr) = true)
    ∧ ((inv.run env (NetResult.urlError msg)).requests.length = 1) := by
  obtain ⟨reqs, hAB | hAB, hlen⟩ := run_eq_family inv env (NetResult.urlError msg) hreq
  · rw [hAB]
    have h := finishA_err1 reqs msg hm
    exact ⟨h.1, h.2.1, h.2.2, by rw [runA_requests]; exact hlen⟩
  · rw [hAB]
    have hname : makeRequestB (NetResult.urlError msg)
        = CallResult.ret (Json.obj [("error", Json.str ("Connection error: " ++ msg))]) := rfl
    have h := finishB_err1 reqs ("Connection error: " ++ msg)
    refine ⟨h.1, h.2.1, ?_, by rw [runB_requests]; exact hlen⟩
    have h2 := h.2.2
    have hsub : substr msg ("Connection error: " ++ msg) = true :=
      substr_appendR _ _ _ (substr_self _)
    simp only [substr, decide_eq_true_eq] at h2 hsub ⊢
    exact hsub.trans h2

/-- Witness for C7: check lock against a refused connection. -/
theorem transport_error_handling_witness :
    ((Invocation.checkLock.run none
        (NetResult.urlError "[Errno 111] Connection refused")).exitCode = 1)
    ∧ ((Invocation.checkLock.run none
        (NetResult.urlError "[Errno 111] Connection refused")).crashed = false)
    ∧ (substr "[Errno 111] Connection refused"
        ((Invocation.checkLock.run none
        (NetResult.urlError "[Errno 111] Connection refused")).stderr) = true)
    ∧ ((Invocation.checkLock.run none
        (NetResult.urlError "[Errno 111] Connection refused")).requests.length = 1) :=
  transport_error_handling Invocation.checkLock none
    "[Errno 111] Connection refused" rfl rfl

/-- Claim C8 (amended): among the GET-issuing tools, list_agents,
list_queues, get_agent_status and get_queue_info pass a fixed
client-side timeout of 30 seconds to urlopen, but
check_task_operator_lock calls urlopen with no timeout argument at all,
so its single GET has no fixed client-side timeout.  The claim as
frozen asserted the 30-second timeout for every read tool including
check lock. -/
theorem read_tool_timeouts (env : Option String) (net : NetResult)
    (name qname : String) :
    ((Invocation.listAgents.run env net).requests.map (fun r => r.timeout) = [some 30])
    ∧ ((Invocation.listQueues.run env net).requests.map (fun r => r.timeout) = [some 30])
    ∧ (((Invocation.getAgentStatus name).run env net).requests.map (fun r => r.timeout) = [some 30])
    ∧ (((Invocation.getQueueInfo qname).run env net).requests.map (fun r => r.timeout) = [some 30])
    ∧ ((Invocation.checkLock.run env net).requests.map (fun r => r.timeout) = [none]) := by
  refine ⟨?_, ?_, ?_, ?_, ?_⟩ <;>
    simp [Invocation.run, runA_requests, runB_requests]

/-- Counterexample to C8 as frozen: the check lock tool issues its GET
with no client-side timeout, not with the 30-second timeout. -/
theorem c8_check_lock_no_timeout_counterexample :
    ((Invocation.checkLock.run none (NetResult.urlError "x")).requests.map
        (fun r => r.timeout) = [none])
    ∧ ((Invocation.checkLock.run none (NetResult.urlError "x")).requests.map
        (fun r => r.timeout) ≠ [some 30]) := by
  exact ⟨rfl, by decide⟩

theorem finishA_shape (reqs : List Request) (r : CallResult) :
    (((finishA reqs r).exitCode = 0 ∨ (finishA reqs r).exitCode = 1))
    ∧ ((finishA reqs r).exitCode = 0 →
        ((finishA reqs r).stderr = "" ∧ (finishA reqs r).crashed = false)) := by
  cases r with
  | raised m => simp [finishA]
  | ret v =>
      rcases h : errorCheck v with _ | b
      · simp [finishA, h]
      · cases b <;> simp [finishA, h]

theorem finishB_shape (reqs : List Request) (r : CallResult) :
    (((finishB reqs r).exitCode = 0 ∨ (finishB reqs r).exitCode = 1))
    ∧ ((finishB reqs r).exitCode = 0 →
        ((finishB reqs r).stderr = "" ∧ (finishB reqs r).crashed = false)) := by
  cases r with
  | raised m => simp [finishB]
  | ret v =>
      rcases h : errorCheck v with _ | b
      · simp [finishB, h]
      · cases b
        · simp [finishB, h]
        · cases v <;> simp [finishB, h]

/-- Claim C9 (amended): every invocation issues at most one outbound
request, and exactly one whenever it reaches its network call (a
create_agent invocation failing argument validation exits 1 with zero
requests); there are no retries; the process always terminates with
exit code 0 or 1, and only a fully successful invocation, with empty
standard error and no escaped exception, exits 0, so every failure is
terminal with a non-zero exit code.  The claim as frozen asserted
exactly one request for every invocation without the validation
proviso. -/
theorem single_request_invariant (inv : Invocation) (env : Option String)
    (net : NetResult) :
    ((inv.run env net).requests.length ≤ 1)
    ∧ (issuesRequest inv = true → (inv.run env net).requests.length = 1)
    ∧ ((inv.run env net).exitCode = 0 ∨ (inv.run env net).exitCode = 1)
    ∧ ((inv.run env net).exitCode = 0 →
        ((inv.run env net).stderr = "" ∧ (inv.run env net).crashed = false)) := by
  cases inv with
  | createAgent a =>
      cases hv : validate_arguments a with
      | ok =>
          simp only [Invocation.run, hv]
          exact ⟨by rw [runA_requests]; exact Nat.le_refl 1,
            fun _ => by rw [runA_requests]; rfl,
            (finishA_shape _ _).1, (finishA_shape _ _).2⟩
      | usageExit m =>
          simp [Invocation.run, hv, issuesRequest]
      | uncaught m =>
          simp [Invocation.run, hv, issuesRequest]
  | checkLock =>
      exact ⟨by simp [Invocation.run, runB_requests],
        fun _ => by simp [Invocation.run, runB_requests],
        (finishB_shape _ _).1, (finishB_shape _ _).2⟩
  | clearLock =>
      exact ⟨by simp [Invocation.run, runB_requests],
        fun _ => by simp [Invocation.run, runB_requests],
        (finishB_shape _ _).1, (finishB_shape _ _).2⟩
  | disableTaskOperator =>
      exact ⟨by simp [Invocation.run, runB_requests],
        fun _ => by simp [Invocation.run, runB_requests],
        (finishB_shape _ _).1, (finishB_shape _ _).2⟩
  | enableTaskOperator q =>
      exact ⟨by simp [Invocation.run, runB_requests],
        fun _ => by simp [Invocation.run, runB_requests],
        (finishB_shape _ _).1, (finishB_shape _ _).2⟩
  | deleteAgent n =>
      exact ⟨by simp [Invocation.run, runA_requests],
        fun _ => by simp [Invocation.run, runA_requests],
        (finishA_shape _ _).1, (finishA_shape _ _).2⟩
  | deleteQueue q =>
      exact ⟨by simp [Invocation.run, runA_requests],
        fun _ => by simp [Invocation.run, runA_requests],
        (finishA_shape _ _).1, (finishA_shape _ _).2⟩
  | getAgentStatus n =>
      exact ⟨by simp [Invocation.run, runA_requests],
        fun _ => by simp [Invocation.run, runA_requests],
        (finishA_shape _ _).1, (finishA_shape _ _).2⟩
  | getQueueInfo q =>
      exact ⟨by simp [Invocation.run, runA_requests],
        fun _ => by simp [Invocation.run, runA_requests],
        (finishA_shape _ _).1, (finishA_shape _ _).2⟩
  | listAgents =>
      exact ⟨by simp [Invocation.run, runA_requests],
        fun _ => by simp [Invocation.run, runA_requests],
        (finishA_shape _ _).1, (finishA_shape _ _).2⟩
  | listQueues =>
      exact ⟨by simp [Invocation.run, runA_requests],
        fun _ => by simp [Invocation.run, runA_requests],
        (finishA_shape _ _).1, (finishA_shape _ _).2⟩

/-- Witness for C9: a successful list_agents invocation issues exactly
one request, and its exit-0 outcome has empty standard error and no
escaped exception. -/
theorem single_request_invariant_witness :
    ((Invocation.listAgents.run none (NetResult.ok 200
        ⟨"[]", some (Json.arr []), ""⟩)).requests.length = 1)
    ∧ ((Invocation.listAgents.run none (NetResult.ok 200
        ⟨"[]", some (Json.arr []), ""⟩)).stderr = "")
    ∧ ((Invocation.listAgents.run none (NetResult.ok 200
        ⟨"[]", some (Json.arr []), ""⟩)).crashed = false) := by
  have h := single_request_invariant Invocation.listAgents none
    (NetResult.ok 200 ⟨"[]", some (Json.arr []), ""⟩)
  exact ⟨h.2.1 rfl, (h.2.2.2 rfl).1, (h.2.2.2 rfl).2⟩

/-- Arguments refuting C9 as frozen: a create_agent invocation with
neither one-time nor schedule. -/
def c9Args : CreateAgentArgs :=
  { name := "t", targetUrl := "http://x", method := "POST",
    headers := { raw := "\x7b\x7d", parsed := some (Json.obj []), decodeMsg := "" },
    body := none, schedule := none, oneTime := false,
    timeout := 30000, queue := none }

/-- Counterexample to C9 as frozen: an invocation that fails argument
validation issues zero outbound requests, not exactly one. -/
theorem c9_zero_requests_counterexample :
    (((Invocation.createAgent c9Args).run none
        (NetResult.urlError "x")).requests.length = 0)
    ∧ (((Invocation.createAgent c9Args).run none
        (NetResult.urlError "x")).requests.length ≠ 1) := by
  exact ⟨rfl, by decide⟩

/-- Claim C10 (confirmed): on a 2xx response whose body is not valid
JSON (the empty body included), both make_request helper variants catch
the JSONDecodeError in their final except clause and return the dict
mapping error to str(e) instead of letting the exception escape, and
every command reaching its network call then prints the error to
standard error and exits 1 without an unhandled fault. -/
theorem invalid_success_body_handling (inv : Invocation) (env : Option String)
    (code : Int) (raw m : String) (hreq : issuesRequest inv = true)
    (hm : jsonPlain m = true) :
    (makeRequestA (NetResult.ok code ⟨raw, none, m⟩)
      = CallResult.ret (Json.obj [("error", Json.str m)]))
    ∧ (makeRequestB (NetResult.ok code ⟨raw, none, m⟩)
      = CallResult.ret (Json.obj [("error", Json.str m)]))
    ∧ ((inv.run env (NetResult.ok code ⟨raw, none, m⟩)).exitCode = 1)
    ∧ ((inv.run env (NetResult.ok code ⟨raw, none, m⟩)).crashed = false)
    ∧ (substr m ((inv.run env (NetResult.ok code ⟨raw, none, m⟩)).stderr) = true) := by
  refine ⟨rfl, rfl, ?_⟩
  obtain ⟨reqs, hAB | hAB, hlen⟩ := run_eq_family inv env
    (NetResult.ok code ⟨raw, none, m⟩) hreq
  · rw [hAB]
    have h := finishA_err1 reqs m hm
    exact ⟨h.1, h.2.1, h.2.2⟩
  · rw [hAB]
    have h := finishB_err1 reqs m
    exact ⟨h.1, h.2.1, h.2.2⟩

/-- Witness for C10: list_agents and check lock behaviour on a 200
response with an empty, undecodable body. -/
theorem invalid_success_body_handling_witness :
    (makeRequestA (NetResult.ok 200
        ⟨"", none, "Expecting value: line 1 column 1 (char 0)"⟩)
      = CallResult.ret (Json.obj
          [("error", Json.str "Expecting value: line 1 column 1 (char 0)")]))
    ∧ (makeRequestB (NetResult.ok 200
        ⟨"", none, "Expecting value: line 1 column 1 (char 0)"⟩)
      = CallResult.ret (Json.obj
          [("error", Json.str "Expecting value: line 1 column 1 (char 0)")]))
    ∧ ((Invocation.listAgents.run none (NetResult.ok 200
        ⟨"", none, "Expecting value: line 1 column 1 (char 0)"⟩)).exitCode = 1)
    ∧ ((Invocation.listAgents.run none (NetResult.ok 200
        ⟨"", none, "Expecting value: line 1 column 1 (char 0)"⟩)).crashed = false)
    ∧ (substr "Expecting value: line 1 column 1 (char 0)"
        ((Invocation.listAgents.run none (NetResult.ok 200
        ⟨"", none, "Expecting value: line 1 column 1 (char 0)"⟩)).stderr) = true) :=
  invalid_success_body_handling Invocation.listAgents none 200 ""
    "Expecting value: line 1 column 1 (char 0)" rfl rfl
